import Mathlib

/-!
Verification of the build-matrix test harness in tools/test_all.py.

The script probes compiler/stdlib pairs, expands a cross-product of build
configurations, and drives each configuration through configure/build/test
stages.  External effects (subprocesses, the filesystem) are represented by
an explicit oracle; everything else is translated directly from the source.
-/

/- ## Python-semantics helpers -/

/-- Lexicographic order on character lists by code point: the order Python
uses to compare strings. -/
def charListLt : List Char → List Char → Bool
  | [], [] => false
  | [], _ :: _ => true
  | _ :: _, [] => false
  | a :: as, b :: bs => if a < b then true else if b < a then false else charListLt as bs

/-- Python string comparison, lexicographic by code point. -/
def strLt (a b : String) : Bool := charListLt a.data b.data

/-- Lexicographic comparison of lists of strings, as Python compares lists. -/
def strListLt : List String → List String → Bool
  | [], [] => false
  | [], _ :: _ => true
  | _ :: _, [] => false
  | a :: as, b :: bs => if strLt a b then true else if strLt b a then false else strListLt as bs

/-- Python tuple comparison for an axis entry `(name, flags)`: compare names
first, then the flag lists. -/
def axisLt (a b : String × List String) : Bool :=
  if strLt a.1 b.1 then true else if strLt b.1 a.1 then false else strListLt a.2 b.2

/-- Insert an element into an ascending list, after all elements it is not
strictly less than. -/
def insertAsc (lt : α → α → Bool) (a : α) : List α → List α
  | [] => [a]
  | b :: bs => if lt a b then a :: b :: bs else b :: insertAsc lt a bs

/-- Stable ascending sort: the result of Python's `sorted`. -/
def pySorted (lt : α → α → Bool) (l : List α) : List α :=
  l.foldl (fun acc a => insertAsc lt a acc) []

/-- Python `', '.join`-style joining of a list of strings. -/
def joinSep (sep : String) : List String → String
  | [] => ""
  | [x] => x
  | x :: xs => x ++ sep ++ joinSep sep xs

/- ## Global constants of the script (lines 39-78) -/

/-- STDLIB (lines 47-50): standard-library flag axis. -/
def STDLIB : List String := ["", "-stdlib=libc++"]

/-- OPT (line 52): optimization axis. -/
def OPT : List String := ["-O0", "-O3"]

/-- LINK (lines 54-57): link-mode axis; a Python dict in insertion order. -/
def LINK : List (String × List String) :=
  [("static", ["--enable-static", "--disable-dynamic"]),
   ("dynamic", ["--disable-static", "--enable-dynamic"])]

/-- DEBUG (lines 59-64): debug-mix axis; a Python dict in insertion order. -/
def DEBUG : List (String × List String) :=
  [("plain", []),
   ("audit", ["--enable-audit"]),
   ("maintainer", ["--enable-maintainer-mode"]),
   ("full", ["--enable-audit", "--enable-maintainer-mode"])]

/- ## Compiler probing (lines 153-185) -/

/-- Result of attempting to start and run one external process: it ran and
exited 0, it ran and exited non-zero (Python raises CalledProcessError), or
the executable was missing (Python raises OSError). -/
inductive ProcResult where
  | success
  | exitNonZero
  | notFound
deriving DecidableEq, Repr

/-- The probe command line built by check_compiler (lines 161-163):
the compiler, the check source, and the stdlib flag when non-empty. -/
def probe_command (cxx check stdlib : String) : List String :=
  if stdlib ≠ "" then [cxx, check, stdlib] else [cxx, check]

/-- check_compiler (lines 153-172): true iff the probe compile succeeds;
both OSError (missing executable) and CalledProcessError (failed compile)
are caught by the same handler and yield false. -/
def check_compiler (probe : String → String → ProcResult) (cxx stdlib : String) : Bool :=
  match probe cxx stdlib with
  | .success => true
  | .exitNonZero => false
  | .notFound => false

/-- The pair ordering of the comprehension in check_compilers (lines 179-185):
outer loop over stdlibs, inner loop over compilers. -/
def cross_pairs (compilers stdlibs : List String) : List (String × String) :=
  stdlibs.flatMap fun stdlib => compilers.map fun cxx => (cxx, stdlib)

/-- check_compilers (lines 175-185): the pairs of the cross-product whose
probe compile succeeds, in comprehension order. -/
def check_compilers (compilers stdlibs : List String)
    (probe : String → String → ProcResult) : List (String × String) :=
  (cross_pairs compilers stdlibs).filter fun p => check_compiler probe p.1 p.2

/- ## Configurations (lines 188-198, 247-260, 316-323) -/

/-- AutotoolsConfig (lines 247-260). -/
structure AutotoolsConfig where
  cxx : String
  opt : String
  stdlib : String
  link : String
  link_opts : List String
  debug : String
  debug_opts : List String
deriving DecidableEq, Repr

/-- AutotoolsConfig.name (lines 258-260): underscore-join of the five axis
values. -/
def AutotoolsConfig.name (c : AutotoolsConfig) : String :=
  c.cxx ++ "_" ++ c.opt ++ "_" ++ c.stdlib ++ "_" ++ c.link ++ "_" ++ c.debug

/-- Config.make_log_name (lines 196-198). -/
def AutotoolsConfig.make_log_name (c : AutotoolsConfig) : String :=
  "build-" ++ c.name ++ ".out"

/-- Identity of one pipeline in the builds list: an autotools build with its
configuration, or the single CMake build (whose config carries no axes). -/
inductive BuildId where
  | autotools (cfg : AutotoolsConfig)
  | cmake
deriving DecidableEq, Repr

/-- Log file name per pipeline: Config.make_log_name over the pipeline's
config; CMakeConfig.name (line 323) is the constant "cmake". -/
def BuildId.make_log_name : BuildId → String
  | .autotools cfg => cfg.make_log_name
  | .cmake => "build-" ++ "cmake" ++ ".out"

/- ## Stage outcomes (lines 81-86, 104-113) -/

/-- What one stage invocation on one build does, as seen by run_step: the
step function returns True, returns False (after report_failure printed
FAIL with the message), raises Skip, or raises Fail. -/
inductive StepOutcome where
  | ok
  | failed (msg : String)
  | skip (msg : String)
  | fail (msg : String)
deriving DecidableEq, Repr

/-- Whether an outcome is the run-fatal Fail exception. -/
def StepOutcome.isFail : StepOutcome → Bool
  | .fail _ => true
  | _ => false

/- ## Autotools stages (lines 267-313) -/

/-- The configure command line (lines 268-285). -/
def autotools_configure_argv (configure_path : String) (c : AutotoolsConfig) : List String :=
  [configure_path, "CXX=" ++ c.cxx] ++
  (if c.stdlib = "" then
    ["CXXFLAGS=" ++ c.opt]
  else
    ["CXXFLAGS=" ++ c.opt ++ " " ++ c.stdlib, "LDFLAGS=" ++ c.stdlib]) ++
  ["--disable-documentation"] ++ c.link_opts ++ c.debug_opts

/-- The distinguished message raised when the configure log shows the source
tree is already configured (lines 295-297). -/
def DISTCLEAN_FAIL_MSG : String :=
  "Configure failed.  Did you remember to \x27make distclean\x27 the source tree?"

/-- AutotoolsBuild.configure outcome (lines 287-300), given whether the
configure process exited 0 and whether the captured log contains the
"make distclean" diagnostic: success reports OK; a non-zero exit raises the
distinguished Fail when the diagnostic is present, else reports an ordinary
configure failure. -/
def autotools_configure (exits0 : Bool) (distclean_in_log : Bool) : StepOutcome :=
  if exits0 then .ok
  else if distclean_in_log then .fail DISTCLEAN_FAIL_MSG
  else .failed "configure failed."

/-- The two make invocations of AutotoolsBuild.build (lines 302-313): a
plain parallel build, then a parallel build of the tests with TESTS= so
they are not run.  The job count is the global CPUS (line 39, the host CPU
count); nothing else flows in. -/
def autotools_build_invocations (cpus : Nat) : List (List String) :=
  [["make", "-j" ++ toString cpus],
   ["make", "-j" ++ toString cpus, "check", "TESTS="]]

/- ## CMake configure stage (lines 333-352) -/

/-- Result of trying one CMake generator: cmake ran and exited 0, the
generator was unavailable (CalledProcessError), or the cmake executable
itself was missing (FileNotFoundError). -/
inductive GenResult where
  | found_ok
  | gen_failed
  | not_found
deriving DecidableEq, Repr

/-- CMakeBuild.configure (lines 333-352) over the per-generator results in
CMAKE_GENERATORS order: a missing cmake executable raises Skip at once; an
unavailable generator moves on to the next; the first success wins; if the
list is exhausted, the whole pipeline raises Skip. -/
def cmake_configure : List GenResult → StepOutcome
  | [] => .skip "Did not find any working CMake generators."
  | .not_found :: _ => .skip "No cmake found."
  | .found_ok :: _ => .ok
  | .gen_failed :: rest => cmake_configure rest

/- ## run_step (lines 366-376) -/

/-- The parameter list of run_step as defined on line 366:
`def run_step(builds, step_name, step)` — and nothing else, in particular
no `verbose` parameter and no keyword catch-all. -/
def run_step_params : List String := ["builds", "step_name", "step"]

/-- Python call semantics: a keyword argument is accepted iff it names a
declared parameter of the callee; otherwise the call raises TypeError. -/
def kwarg_ok (params : List String) (kw : String) : Bool := params.contains kw

/-- What one run_step pass over the builds produced: the builds whose step
function was invoked, the chunks printed to standard output, and either the
surviving builds or the message of a propagating Fail. -/
structure StepPass (B : Type) where
  attempted : List B
  prints : List String
  result : Except String (List B)
deriving Repr

/-- run_step (lines 366-376): for each build print the report header, run
the step; True appends the build to the survivors, False and Skip drop it
(Skip printing its notice), and Fail propagates, abandoning the rest of the
pass.  The OK and FAIL chunks are printed by the step itself via
report_success and report_failure (lines 104-113). -/
def run_step (logName : B → String) (stageName : String) (step : B → StepOutcome) :
    List B → StepPass B
  | [] => { attempted := [], prints := [], result := .ok [] }
  | b :: bs =>
    let header := logName b ++ " - " ++ stageName ++ "... "
    match step b with
    | .ok =>
      let rest := run_step logName stageName step bs
      { attempted := b :: rest.attempted,
        prints := header :: "OK" :: rest.prints,
        result := rest.result.map (b :: ·) }
    | .failed m =>
      let rest := run_step logName stageName step bs
      { attempted := b :: rest.attempted,
        prints := header :: ("FAIL: " ++ m) :: rest.prints,
        result := rest.result }
    | .skip m =>
      let rest := run_step logName stageName step bs
      { attempted := b :: rest.attempted,
        prints := header :: ("Skipping: " ++ m) :: rest.prints,
        result := rest.result }
    | .fail m =>
      { attempted := [b], prints := [header], result := .error m }

/-- The aggregate report of line 467, "Passed %d out of %d builds.": the
count of builds that survived the test stage, against the count of all
builds. -/
def aggregate_report (done builds : List BuildId) : Nat × Nat :=
  (done.length, builds.length)

/- ## The main program (lines 379-475) -/

/-- The command-line arguments of parse_args (lines 379-407).  The
compilers, optimize and stdlibs fields hold the comma-split lists that main
derives from the raw option strings (lines 418-427); jobs is the --jobs
option, parsed on lines 399-403 and never read again anywhere in the
script. -/
structure Args where
  verbose : Bool
  compilers : List String
  optimize : List String
  stdlibs : List String
  logs : String
  jobs : Nat
  minimal : Bool

/-- The external world of one run: the filesystem check for the logs
directory, the probe-compile result per compiler/stdlib pair, the configure
process exit and captured-log contents per autotools configuration, the
per-generator CMake results, and the build/test process exits. -/
structure Oracle where
  isDir : String → Bool
  probe : String → String → ProcResult
  configureExits0 : AutotoolsConfig → Bool
  logHasDistclean : AutotoolsConfig → Bool
  cmakeGens : List GenResult
  makeExits0 : AutotoolsConfig → Bool
  makeErr : AutotoolsConfig → String
  cmakeBuildExits0 : Bool
  runnerExits0 : BuildId → Bool

/-- The three pipeline stages main drives (lines 454-462). -/
inductive Stage where
  | configure
  | build
  | test
deriving DecidableEq, Repr

/-- How the process ends: the summary line was printed and the script fell
off the end; a Fail was caught by the handler on lines 470-474; or an
exception other than Fail (the TypeError of the run_step calls on lines
457-462) escaped. -/
inductive ExitStatus where
  | completed (passed total : Nat)
  | failCaught (msg : String)
  | uncaughtTypeError
deriving DecidableEq, Repr

/-- Python process semantics for the script: falling off the end of the
program exits 0 — also after the except-Fail handler, which only writes the
message and does not set an exit status — while an uncaught exception makes
the interpreter exit 1. -/
def exit_code : ExitStatus → Nat
  | .completed _ _ => 0
  | .failCaught _ => 0
  | .uncaughtTypeError => 1

/-- What the except-Fail handler (lines 473-474) writes to the error
stream.  An uncaught TypeError also produces interpreter traceback output
on the error stream, but not through this handler. -/
def fail_stderr : ExitStatus → Option String
  | .completed _ _ => none
  | .failCaught m => some (m ++ "\n")
  | .uncaughtTypeError => none

/-- Everything observable about one run: how the process ended, which
pipelines were constructed (each opening its log and creating its scratch
directory, lines 206-210), which pipelines had clean_up run on them in the
finally block (removing the scratch directory and closing the log, lines
218-221 and 463-465), which stage invocations happened, the stdout chunks
of the stage passes, and the passed/total counts of the final line if it
was printed. -/
structure RunResult where
  exit : ExitStatus
  started : List BuildId
  cleaned : List BuildId
  steps : List (BuildId × Stage)
  stdoutChunks : List String
  summary : Option (Nat × Nat)
deriving Repr

/-- The configure step of one pipeline: AutotoolsBuild.configure for the
axis builds, CMakeBuild.configure for the CMake build. -/
def configure_step (o : Oracle) : BuildId → StepOutcome
  | .autotools c => autotools_configure (o.configureExits0 c) (o.logHasDistclean c)
  | .cmake => cmake_configure o.cmakeGens

/-- The build step of one pipeline: AutotoolsBuild.build (lines 302-313)
reports OK iff both make invocations exit 0 and otherwise reports the
CalledProcessError; CMakeBuild.build (lines 354-363) reports its fixed
failure message. -/
def build_step (o : Oracle) : BuildId → StepOutcome
  | .autotools c => if o.makeExits0 c then .ok else .failed (o.makeErr c)
  | .cmake => if o.cmakeBuildExits0 then .ok else .failed "CMake build failed."

/-- The test step (lines 235-244): run the test runner; a non-zero exit
reports the fixed failure message. -/
def test_step (o : Oracle) : BuildId → StepOutcome
  | b => if o.runnerExits0 b then .ok else .failed "Tests failed."

/-- The builds list of lines 440-452, given the surviving compiler pairs
and the (possibly truncated) axes: the cross-product in comprehension order
— sorted optimization levels, then sorted link modes, then sorted debug
mixes, then compiler pairs in probe order — followed by the single CMake
build. -/
def build_matrix (compilers : List (String × String)) (opt_levels : List String)
    (link_types debug_mixes : List (String × List String)) : List BuildId :=
  ((pySorted strLt opt_levels).flatMap fun opt =>
    (pySorted axisLt link_types).flatMap fun lk =>
      (pySorted axisLt debug_mixes).flatMap fun db =>
        compilers.map fun cs =>
          BuildId.autotools
            { cxx := cs.1, opt := opt, stdlib := cs.2, link := lk.1,
              link_opts := lk.2, debug := db.1, debug_opts := db.2 })
  ++ [BuildId.cmake]

/-- The compiler pairs surviving the probe (lines 419-421). -/
def viable_compilers (args : Args) (o : Oracle) : List (String × String) :=
  check_compilers args.compilers args.stdlibs o.probe

/-- The builds list main constructs (lines 427-452): the axes, truncated to
their first element when --minimal is set (lines 431-435, before the
sorting of lines 446-448), expanded by build_matrix. -/
def matrix_of (args : Args) (o : Oracle) : List BuildId :=
  let compilers := viable_compilers args o
  let compilers := if args.minimal then compilers.take 1 else compilers
  let opt_levels := if args.minimal then args.optimize.take 1 else args.optimize
  let link_types := if args.minimal then LINK.take 1 else LINK
  let debug_mixes := if args.minimal then DEBUG.take 1 else DEBUG
  build_matrix compilers opt_levels link_types debug_mixes

/-- The configure pass of line 455-456: the only run_step call made with
positional arguments only. -/
def configure_pass (args : Args) (o : Oracle) : StepPass BuildId :=
  run_step BuildId.make_log_name "configure" (configure_step o) (matrix_of args o)

/-- The message of the Fail on lines 412-413. -/
def LOGS_FAIL_MSG (logs : String) : String :=
  "Logs location \x27" ++ logs ++ "\x27 is not a directory."

/-- The message of the Fail on lines 422-425. -/
def NO_COMPILERS_FAIL_MSG (candidates : List String) : String :=
  "Did not find any viable compilers.  Tried: " ++ joinSep ", " candidates ++ "."

/-- main wrapped in the __main__ handler (lines 410-475).  The logs check
and the empty-probe check each raise Fail before any pipeline exists; the
builds list is then constructed and the three stage passes attempted inside
try/finally, with clean_up run on every build in the finally block.  The
build-stage and test-stage run_step calls pass a verbose keyword that
run_step does not declare, so whenever the configure pass finishes without
a Fail, the build-stage call raises TypeError; the branches behind the
kwarg_ok tests transcribe lines 457-467 as they would run if the calls were
accepted. -/
def main_run (args : Args) (o : Oracle) : RunResult :=
  if !o.isDir args.logs then
    { exit := .failCaught (LOGS_FAIL_MSG args.logs), started := [], cleaned := [],
      steps := [], stdoutChunks := [], summary := none }
  else if viable_compilers args o = [] then
    { exit := .failCaught (NO_COMPILERS_FAIL_MSG args.compilers), started := [],
      cleaned := [], steps := [], stdoutChunks := [], summary := none }
  else
    let builds := matrix_of args o
    let pass1 := configure_pass args o
    let steps1 := pass1.attempted.map fun b => (b, Stage.configure)
    match pass1.result with
    | .error msg =>
      { exit := .failCaught msg, started := builds, cleaned := builds,
        steps := steps1, stdoutChunks := pass1.prints, summary := none }
    | .ok to_build =>
      if kwarg_ok run_step_params "verbose" then
        let pass2 := run_step BuildId.make_log_name "build" (build_step o) to_build
        let steps2 := steps1 ++ pass2.attempted.map fun b => (b, Stage.build)
        match pass2.result with
        | .error msg =>
          { exit := .failCaught msg, started := builds, cleaned := builds,
            steps := steps2, stdoutChunks := pass1.prints ++ pass2.prints,
            summary := none }
        | .ok to_test =>
          if kwarg_ok run_step_params "verbose" then
            let pass3 := run_step BuildId.make_log_name "test" (test_step o) to_test
            let steps3 := steps2 ++ pass3.attempted.map fun b => (b, Stage.test)
            match pass3.result with
            | .error msg =>
              { exit := .failCaught msg, started := builds, cleaned := builds,
                steps := steps3,
                stdoutChunks := pass1.prints ++ pass2.prints ++ pass3.prints,
                summary := none }
            | .ok done =>
              { exit := .completed done.length builds.length, started := builds,
                cleaned := builds, steps := steps3,
                stdoutChunks := pass1.prints ++ pass2.prints ++ pass3.prints ++
                  ["Passed " ++ toString done.length ++ " out of " ++
                    toString builds.length ++ " builds."],
                summary := some (aggregate_report done builds) }
          else
            { exit := .uncaughtTypeError, started := builds, cleaned := builds,
              steps := steps2, stdoutChunks := pass1.prints ++ pass2.prints,
              summary := none }
      else
        { exit := .uncaughtTypeError, started := builds, cleaned := builds,
          steps := steps1, stdoutChunks := pass1.prints, summary := none }

/- ## Survival classes (how an outcome affects the survivor list) -/

/-- How one step outcome affects the pass: the build advances to the next
stage, the build is dropped, or the whole pass aborts with a Fail. -/
inductive SurvivalClass where
  | advance
  | drop
  | abort (msg : String)
deriving DecidableEq, Repr

/-- The survival class of each outcome under run_step: True advances,
False and Skip both drop the build, Fail aborts. -/
def StepOutcome.survival : StepOutcome → SurvivalClass
  | .ok => .advance
  | .failed _ => .drop
  | .skip _ => .drop
  | .fail m => .abort m

/- ## Concrete scenario inputs -/

/-- The minimal-mode run of the C1 scenario: two compiler candidates, one
stdlib flag, one optimization level. -/
def scenario1_args : Args :=
  { verbose := false, compilers := ["cc-ok", "cc-missing"], optimize := ["-O0"],
    stdlibs := [""], logs := "logs", jobs := 8, minimal := true }

/-- A world in which only cc-ok compiles, configure succeeds, the cmake
executable is missing, and everything else would succeed. -/
def scenario1_oracle : Oracle :=
  { isDir := fun _ => true,
    probe := fun cxx _ => if cxx = "cc-ok" then .success else .notFound,
    configureExits0 := fun _ => true,
    logHasDistclean := fun _ => false,
    cmakeGens := [.not_found, .not_found],
    makeExits0 := fun _ => true,
    makeErr := fun _ => "",
    cmakeBuildExits0 := true,
    runnerExits0 := fun _ => true }

/-- The single autotools configuration the C1 scenario produces. -/
def scenario1_cfg : AutotoolsConfig :=
  { cxx := "cc-ok", opt := "-O0", stdlib := "", link := "static",
    link_opts := ["--enable-static", "--disable-dynamic"],
    debug := "plain", debug_opts := [] }

/-- A world whose logs path is not a directory. -/
def scenario2_oracle : Oracle :=
  { scenario1_oracle with isDir := fun _ => false }

/-- A world in which every configure run exits non-zero and leaves the
already-configured diagnostic in the log. -/
def scenario6_oracle : Oracle :=
  { scenario1_oracle with
    configureExits0 := fun _ => false,
    logHasDistclean := fun _ => true }

/-- Minimal-mode arguments whose optimization list is not sorted: the first
element differs from the least element. -/
def scenario8_args : Args :=
  { scenario1_args with compilers := ["cc-ok"], optimize := ["-O3", "-O0"] }

/- ## Underscore-free strings (for the log-name identity) -/

/-- A string in which the underscore separator of AutotoolsConfig.name does
not occur. -/
abbrev underscore_free (s : String) : Prop := '_' ∉ s.data

/- ## Lemmas about the probe -/

/-- Membership in the probe result: a pair is retained iff it lies in the
cross-product and its probe compile succeeded. -/
theorem mem_check_compilers (compilers stdlibs : List String)
    (probe : String → String → ProcResult) (p : String × String) :
    p ∈ check_compilers compilers stdlibs probe ↔
      p ∈ cross_pairs compilers stdlibs ∧ probe p.1 p.2 = .success := by
  unfold check_compilers
  rw [List.mem_filter]
  constructor
  · rintro ⟨hmem, hc⟩
    refine ⟨hmem, ?_⟩
    unfold check_compiler at hc
    cases h : probe p.1 p.2 <;> simp [h] at hc
    rfl
  · rintro ⟨hmem, hs⟩
    exact ⟨hmem, by unfold check_compiler; rw [hs]⟩

/-- Probes that succeed on the same pairs retain the same pairs. -/
theorem check_compilers_congr (compilers stdlibs : List String)
    (probe1 probe2 : String → String → ProcResult)
    (h : ∀ cxx stdlib, probe1 cxx stdlib = .success ↔ probe2 cxx stdlib = .success) :
    check_compilers compilers stdlibs probe1 = check_compilers compilers stdlibs probe2 := by
  unfold check_compilers
  apply List.filter_congr
  intro p _
  unfold check_compiler
  have hp := h p.1 p.2
  cases h1 : probe1 p.1 p.2 <;> cases h2 : probe2 p.1 p.2 <;> simp_all

/-- Claim C5: the probe retains a subset of the compiler/stdlib
cross-product; a pair is retained iff its probe compile invocation exits
successfully; a missing compiler executable and a failing compile are
treated identically, both merely excluding the pair while the probe
continues over the remaining pairs. -/
theorem claim_C5 (compilers stdlibs : List String)
    (probe probe2 : String → String → ProcResult) :
    (∀ p ∈ check_compilers compilers stdlibs probe, p ∈ cross_pairs compilers stdlibs) ∧
    (∀ p, p ∈ check_compilers compilers stdlibs probe ↔
      p ∈ cross_pairs compilers stdlibs ∧ probe p.1 p.2 = .success) ∧
    (∀ cxx stdlib, probe cxx stdlib = .notFound ∨ probe cxx stdlib = .exitNonZero →
      check_compiler probe cxx stdlib = false) ∧
    ((∀ cxx stdlib, probe cxx stdlib = .success ↔ probe2 cxx stdlib = .success) →
      check_compilers compilers stdlibs probe = check_compilers compilers stdlibs probe2) := by
  refine ⟨?_, ?_, ?_, ?_⟩
  · intro p hp
    exact ((mem_check_compilers compilers stdlibs probe p).1 hp).1
  · exact mem_check_compilers compilers stdlibs probe
  · intro cxx stdlib h
    unfold check_compiler
    rcases h with h | h <;> rw [h]
  · exact check_compilers_congr compilers stdlibs probe probe2

/-- A failing compile and a missing compiler, concretely: probes that fail
on cc-bad for the two different reasons retain the same single pair. -/
def w5probe1 : String → String → ProcResult :=
  fun cxx _ => if cxx = "cc-good" then .success else .notFound

/-- The same probe world, with the failure reason flipped to a compile
error. -/
def w5probe2 : String → String → ProcResult :=
  fun cxx _ => if cxx = "cc-good" then .success else .exitNonZero

/-- Witness for claim C5 at a concrete input. -/
theorem claim_C5_witness :
    check_compilers ["cc-good", "cc-bad"] [""] w5probe1 =
      check_compilers ["cc-good", "cc-bad"] [""] w5probe2 ∧
    (("cc-good", "") ∈ check_compilers ["cc-good", "cc-bad"] [""] w5probe1 ↔
      ("cc-good", "") ∈ cross_pairs ["cc-good", "cc-bad"] [""] ∧
        w5probe1 "cc-good" "" = .success) := by
  constructor
  · refine (claim_C5 ["cc-good", "cc-bad"] [""] w5probe1 w5probe2).2.2.2 ?_
    intro cxx stdlib
    unfold w5probe1 w5probe2
    by_cases h : cxx = "cc-good" <;> simp [h]
  · exact (claim_C5 ["cc-good", "cc-bad"] [""] w5probe1 w5probe2).2.1 ("cc-good", "")

/- ## Claim C9: the build invocation and the unused jobs option -/

/-- Claim C9 (code bug): the make invocations of the build stage always use
the global CPU count as job count, and the whole run is invariant under the
--jobs option — the parsed jobs value is never read, so the user-supplied
override has no effect. -/
theorem claim_C9 (args : Args) (o : Oracle) (j cpus : Nat) :
    main_run { args with jobs := j } o = main_run args o ∧
    autotools_build_invocations cpus =
      [["make", "-j" ++ toString cpus],
       ["make", "-j" ++ toString cpus, "check", "TESTS="]] := by
  constructor
  · cases args
    rfl
  · rfl

/- ## Lemmas about the underscore join -/

/-- Splitting at the first separator: if neither prefix contains the
underscore, equal underscore-separated concatenations have equal prefixes
and equal remainders. -/
theorem append_underscore_inj :
    ∀ (a₁ : List Char), ∀ {a₂ r₁ r₂ : List Char}, '_' ∉ a₁ → '_' ∉ a₂ →
      a₁ ++ '_' :: r₁ = a₂ ++ '_' :: r₂ → a₁ = a₂ ∧ r₁ = r₂ := by
  intro a₁
  induction a₁ with
  | nil =>
    intro a₂ r₁ r₂ _ h₂ h
    cases a₂ with
    | nil => simpa using h
    | cons c cs =>
      exfalso
      have hc : '_' = c ∧ r₁ = cs ++ '_' :: r₂ := by simpa using h
      have hm : ('_' : Char) ∈ c :: cs := by
        rw [← hc.1]
        exact List.mem_cons_self '_' cs
      exact h₂ hm
  | cons x xs ih =>
    intro a₂ r₁ r₂ h₁ h₂ h
    cases a₂ with
    | nil =>
      exfalso
      have hc : x = '_' ∧ xs ++ '_' :: r₁ = r₂ := by simpa using h
      have hm : ('_' : Char) ∈ x :: xs := by
        rw [hc.1]
        exact List.mem_cons_self '_' xs
      exact h₁ hm
    | cons y ys =>
      have hc : x = y ∧ xs ++ '_' :: r₁ = ys ++ '_' :: r₂ := by simpa using h
      have hx : '_' ∉ xs := fun hm => h₁ (List.mem_cons_of_mem x hm)
      have hy : '_' ∉ ys := fun hm => h₂ (List.mem_cons_of_mem y hm)
      obtain ⟨e, f⟩ := ih hx hy hc.2
      exact ⟨by rw [hc.1, e], f⟩

/-- The character list underlying a configuration name, in right-nested
separator form. -/
theorem name_data (c : AutotoolsConfig) :
    c.name.data =
      c.cxx.data ++ '_' :: (c.opt.data ++ '_' :: (c.stdlib.data ++ '_' ::
        (c.link.data ++ '_' :: c.debug.data))) := by
  have hu : ("_" : String).data = ['_'] := rfl
  simp [AutotoolsConfig.name, String.data_append, hu]

/-- Claim C10 (amended part): the name is deterministic, and injective in
the five axis values as long as none of them contains the underscore
separator. -/
theorem claim_C10_amended (c₁ c₂ : AutotoolsConfig)
    (h₁ : underscore_free c₁.cxx) (h₂ : underscore_free c₁.opt)
    (h₃ : underscore_free c₁.stdlib) (h₄ : underscore_free c₁.link)
    (g₁ : underscore_free c₂.cxx) (g₂ : underscore_free c₂.opt)
    (g₃ : underscore_free c₂.stdlib) (g₄ : underscore_free c₂.link) :
    (c₁ = c₂ → c₁.name = c₂.name) ∧
    (c₁.name = c₂.name →
      c₁.cxx = c₂.cxx ∧ c₁.opt = c₂.opt ∧ c₁.stdlib = c₂.stdlib ∧
      c₁.link = c₂.link ∧ c₁.debug = c₂.debug) := by
  constructor
  · intro h
    rw [h]
  · intro h
    have hd := congrArg String.data h
    rw [name_data, name_data] at hd
    obtain ⟨e₁, hd⟩ := append_underscore_inj _ h₁ g₁ hd
    obtain ⟨e₂, hd⟩ := append_underscore_inj _ h₂ g₂ hd
    obtain ⟨e₃, hd⟩ := append_underscore_inj _ h₃ g₃ hd
    obtain ⟨e₄, hd⟩ := append_underscore_inj _ h₄ g₄ hd
    exact ⟨String.ext e₁, String.ext e₂, String.ext e₃, String.ext e₄, String.ext hd⟩

/-- Witness for the amended claim C10: two configurations that agree on the
five axis values but differ in their flag lists get the same name, and the
injectivity direction recovers the axis equalities. -/
theorem claim_C10_amended_witness :
    let c₁ : AutotoolsConfig :=
      { cxx := "g++-9", opt := "-O0", stdlib := "", link := "static",
        link_opts := ["--enable-static"], debug := "plain", debug_opts := [] }
    let c₂ : AutotoolsConfig :=
      { cxx := "g++-9", opt := "-O0", stdlib := "", link := "static",
        link_opts := [], debug := "plain", debug_opts := ["--enable-audit"] }
    c₁.cxx = c₂.cxx ∧ c₁.opt = c₂.opt ∧ c₁.stdlib = c₂.stdlib ∧
      c₁.link = c₂.link ∧ c₁.debug = c₂.debug :=
  (claim_C10_amended _ _ (by decide) (by decide) (by decide) (by decide)
    (by decide) (by decide) (by decide) (by decide)).2 (by decide)

/-- Counterexample to claim C10 as stated: over arbitrary axis strings the
underscore join is not collision-free — two distinct configurations, one
with an underscore inside the compiler name, share one name and hence one
log file name. -/
theorem claim_C10_counterexample :
    let c₁ : AutotoolsConfig :=
      { cxx := "a_b", opt := "c", stdlib := "s", link := "l",
        link_opts := [], debug := "d", debug_opts := [] }
    let c₂ : AutotoolsConfig :=
      { cxx := "a", opt := "b_c", stdlib := "s", link := "l",
        link_opts := [], debug := "d", debug_opts := [] }
    c₁ ≠ c₂ ∧ c₁.name = c₂.name ∧ c₁.make_log_name = c₂.make_log_name := by
  refine ⟨by decide, by decide, by decide⟩

/- ## Lemmas about run_step -/

/-- Survivors of a pass that completed without a Fail are builds from the
input whose step returned True. -/
theorem run_step_ok_of_mem {B : Type} (logName : B → String) (stageName : String)
    (step : B → StepOutcome) :
    ∀ (bs : List B) {l : List B},
      (run_step logName stageName step bs).result = .ok l →
      ∀ b ∈ l, b ∈ bs ∧ step b = .ok := by
  intro bs
  induction bs with
  | nil =>
    intro l h b hb
    simp [run_step] at h
    subst h
    simp at hb
  | cons x xs ih =>
    intro l h b hb
    cases hstep : step x <;> rw [run_step] at h <;> simp only [hstep] at h
    case ok =>
      cases hrest : (run_step logName stageName step xs).result with
      | error m => rw [hrest] at h; simp [Except.map] at h
      | ok l2 =>
        rw [hrest] at h
        simp [Except.map] at h
        subst h
        rcases List.mem_cons.1 hb with hb | hb
        · exact ⟨by simp [hb], by rw [hb]; exact hstep⟩
        · obtain ⟨hm, ho⟩ := ih hrest b hb
          exact ⟨List.mem_cons_of_mem x hm, ho⟩
    case failed m =>
      obtain ⟨hm, ho⟩ := ih h b hb
      exact ⟨List.mem_cons_of_mem x hm, ho⟩
    case skip m =>
      obtain ⟨hm, ho⟩ := ih h b hb
      exact ⟨List.mem_cons_of_mem x hm, ho⟩
    case fail m =>
      simp at h

/-- In a pass that completed without a Fail, every build whose step raised
Skip had its informational notice printed. -/
theorem run_step_skip_notice {B : Type} (logName : B → String) (stageName : String)
    (step : B → StepOutcome) :
    ∀ (bs : List B) {l : List B} {b : B} {m : String},
      (run_step logName stageName step bs).result = .ok l →
      b ∈ bs → step b = .skip m →
      ("Skipping: " ++ m) ∈ (run_step logName stageName step bs).prints := by
  intro bs
  induction bs with
  | nil =>
    intro l b m _ hb
    simp at hb
  | cons x xs ih =>
    intro l b m h hb hskip
    rcases List.mem_cons.1 hb with hb | hb
    · subst hb
      rw [run_step]
      simp only [hskip]
      simp
    · cases hstep : step x <;> rw [run_step] at h ⊢ <;> simp only [hstep] at h ⊢
      case ok =>
        cases hrest : (run_step logName stageName step xs).result with
        | error mm => rw [hrest] at h; simp [Except.map] at h
        | ok l2 =>
          simp
          exact Or.inr (Or.inr (ih hrest hb hskip))
      case failed mm =>
        simp
        exact Or.inr (Or.inr (ih h hb hskip))
      case skip mm =>
        simp
        exact Or.inr (Or.inr (ih h hb hskip))
      case fail mm =>
        simp at h

/-- The survivor computation is determined by the survival class of each
outcome alone: steps whose outcomes advance, drop and abort in the same
places produce the same result — in particular a Skip and a Failure
propagate identically. -/
theorem run_step_result_congr {B : Type} (logName : B → String) (stageName : String)
    (step1 step2 : B → StepOutcome) :
    ∀ (bs : List B),
      (∀ b ∈ bs, (step1 b).survival = (step2 b).survival) →
      (run_step logName stageName step1 bs).result =
        (run_step logName stageName step2 bs).result := by
  intro bs
  induction bs with
  | nil => intro _; rfl
  | cons x xs ih =>
    intro hsurv
    have hx := hsurv x (List.mem_cons_self x xs)
    have hxs : ∀ b ∈ xs, (step1 b).survival = (step2 b).survival :=
      fun b hb => hsurv b (List.mem_cons_of_mem x hb)
    have hrec := ih hxs
    cases h1 : step1 x <;> cases h2 : step2 x <;>
      rw [h1, h2] at hx <;> simp [StepOutcome.survival] at hx <;>
      simp only [run_step, h1, h2] <;> first | rw [hrec] | rw [hx]

/-- A Fail raised at one build aborts the pass: the builds before it were
attempted, the failing build was attempted, the rest were not, and the
result carries the Fail message. -/
theorem run_step_fail_split {B : Type} (logName : B → String) (stageName : String)
    (step : B → StepOutcome) (b : B) (m : String) :
    ∀ (pre post : List B),
      (∀ x ∈ pre, (step x).isFail = false) → step b = .fail m →
      (run_step logName stageName step (pre ++ b :: post)).result = .error m ∧
      (run_step logName stageName step (pre ++ b :: post)).attempted = pre ++ [b] := by
  intro pre
  induction pre with
  | nil =>
    intro post _ hb
    rw [List.nil_append]
    constructor <;> (rw [run_step]; simp [hb])
  | cons x xs ih =>
    intro post hpre hb
    have hx := hpre x (List.mem_cons_self x xs)
    have hxs : ∀ y ∈ xs, (step y).isFail = false :=
      fun y hy => hpre y (List.mem_cons_of_mem x hy)
    obtain ⟨hr, ha⟩ := ih post hxs hb
    rw [List.cons_append]
    cases hstep : step x <;> rw [run_step] <;> simp only [hstep]
    case ok => exact ⟨by simp [hr, Except.map], by simp [ha]⟩
    case failed mm => exact ⟨by simp [hr], by simp [ha]⟩
    case skip mm => exact ⟨by simp [hr], by simp [ha]⟩
    case fail mm => rw [hstep] at hx; simp [StepOutcome.isFail] at hx

/- ## Claim C4: Skip handling -/

/-- Claim C4 (amended): a pipeline whose stage raises Skip is excluded from
the survivors and only its informational notice is printed, so skip and
failure are distinguishable per stage; but the survivor list — the sole
input of the passed/total tally — treats a Skip exactly like a Failure, so
the aggregate counts cannot tell them apart. -/
theorem claim_C4_amended (stageName : String) (step step2 : BuildId → StepOutcome)
    (bs : List BuildId) (b : BuildId) (m : String) (l : List BuildId)
    (hb : b ∈ bs) (hs : step b = .skip m)
    (hres : (run_step BuildId.make_log_name stageName step bs).result = .ok l) :
    b ∉ l ∧
    ("Skipping: " ++ m) ∈ (run_step BuildId.make_log_name stageName step bs).prints ∧
    ((∀ x ∈ bs, (step x).survival = (step2 x).survival) →
      (run_step BuildId.make_log_name stageName step bs).result =
        (run_step BuildId.make_log_name stageName step2 bs).result) := by
  refine ⟨?_, ?_, ?_⟩
  · intro hmem
    have h := (run_step_ok_of_mem BuildId.make_log_name stageName step bs hres b hmem).2
    rw [hs] at h
    exact StepOutcome.noConfusion h
  · exact run_step_skip_notice BuildId.make_log_name stageName step bs hres hb hs
  · exact run_step_result_congr BuildId.make_log_name stageName step step2 bs

/-- Witness for the amended claim C4 at a concrete pass: the CMake pipeline
skips during configure; it is dropped, its notice is printed, and replacing
the Skip by an ordinary Failure leaves the survivor result unchanged. -/
theorem claim_C4_amended_witness :
    BuildId.cmake ∉ ([] : List BuildId) ∧
    ("Skipping: " ++ "No cmake found.") ∈
      (run_step BuildId.make_log_name "configure"
        (fun _ => .skip "No cmake found.") [BuildId.cmake]).prints ∧
    ((∀ x ∈ [BuildId.cmake],
        (StepOutcome.skip "No cmake found.").survival =
          (StepOutcome.failed "configure failed.").survival) →
      (run_step BuildId.make_log_name "configure"
        (fun _ => .skip "No cmake found.") [BuildId.cmake]).result =
      (run_step BuildId.make_log_name "configure"
        (fun _ => .failed "configure failed.") [BuildId.cmake]).result) :=
  claim_C4_amended "configure" (fun _ => .skip "No cmake found.")
    (fun _ => .failed "configure failed.") [BuildId.cmake] BuildId.cmake
    "No cmake found." [] (by decide) rfl rfl

/-- Counterexample to claim C4 as stated: a run in which the sole pipeline
skips and a run in which it fails produce identical survivor results and
identical aggregate passed/total counts — in the aggregate report a Skip is
not observable separately from a Failure. -/
theorem claim_C4_counterexample :
    (run_step BuildId.make_log_name "configure"
      (fun _ => .skip "Did not find any working CMake generators.")
      [BuildId.cmake]).result =
    (run_step BuildId.make_log_name "configure"
      (fun _ => .failed "configure failed.") [BuildId.cmake]).result ∧
    (run_step BuildId.make_log_name "configure"
      (fun _ => .skip "Did not find any working CMake generators.")
      [BuildId.cmake]).result = .ok [] ∧
    aggregate_report [] [BuildId.cmake] = (0, 1) := by
  refine ⟨rfl, rfl, rfl⟩

/- ## Claim C7: unconditional cleanup -/

/-- Claim C7: clean_up runs in the finally block over exactly the pipelines
that were started, whatever the run outcome, so after every run each
started pipeline has its scratch directory removed and its log closed; and
once the probe succeeds, the started pipelines are the whole builds
list. -/
theorem claim_C7 (args : Args) (o : Oracle) :
    (main_run args o).cleaned = (main_run args o).started ∧
    (∀ b ∈ (main_run args o).started, b ∈ (main_run args o).cleaned) ∧
    (o.isDir args.logs = true → viable_compilers args o ≠ [] →
      (main_run args o).started = matrix_of args o) := by
  have h1 : (main_run args o).cleaned = (main_run args o).started := by
    unfold main_run
    repeat (first | rfl | split | dsimp only)
  refine ⟨h1, ?_, ?_⟩
  · intro b hb
    rw [h1]
    exact hb
  · intro hdir hviable
    unfold main_run
    rw [hdir]
    simp only [Bool.not_true, Bool.false_eq_true, if_false, if_neg hviable]
    repeat (first | rfl | split | dsimp only)

/-- Witness for claim C7 at the concrete C1 scenario. -/
theorem claim_C7_witness :
    (main_run scenario1_args scenario1_oracle).cleaned =
      (main_run scenario1_args scenario1_oracle).started ∧
    (main_run scenario1_args scenario1_oracle).started =
      matrix_of scenario1_args scenario1_oracle :=
  ⟨(claim_C7 scenario1_args scenario1_oracle).1,
   (claim_C7 scenario1_args scenario1_oracle).2.2 (by decide) (by decide)⟩

/- ## Claim C3: the verbose keyword TypeError -/

/-- Claim C3: run_step declares exactly the three parameters builds,
step_name and step, while main passes a verbose keyword to the build-stage
and test-stage calls; hence every run whose configure pass completes
without a run-fatal Fail ends in an uncaught TypeError at the build-stage
call, never prints the final summary line, and still runs the unconditional
cleanup of the finally block. -/
theorem claim_C3 (args : Args) (o : Oracle) (to_build : List BuildId)
    (hdir : o.isDir args.logs = true)
    (hviable : viable_compilers args o ≠ [])
    (hconf : (configure_pass args o).result = .ok to_build) :
    run_step_params = ["builds", "step_name", "step"] ∧
    kwarg_ok run_step_params "verbose" = false ∧
    (main_run args o).exit = .uncaughtTypeError ∧
    (main_run args o).summary = none ∧
    (main_run args o).cleaned = (main_run args o).started := by
  refine ⟨rfl, rfl, ?_⟩
  unfold main_run
  rw [hdir]
  simp only [Bool.not_true, Bool.false_eq_true, if_false, if_neg hviable]
  rw [hconf]
  exact ⟨rfl, rfl, rfl⟩

/-- Witness for claim C3 at the concrete C1 scenario, whose configure pass
succeeds on the single autotools build and skips the CMake build. -/
theorem claim_C3_witness :
    (main_run scenario1_args scenario1_oracle).exit = .uncaughtTypeError ∧
    (main_run scenario1_args scenario1_oracle).summary = none ∧
    (main_run scenario1_args scenario1_oracle).cleaned =
      (main_run scenario1_args scenario1_oracle).started := by
  have h := claim_C3 scenario1_args scenario1_oracle
    [BuildId.autotools scenario1_cfg] (by decide) (by decide) rfl
  exact ⟨h.2.2.1, h.2.2.2.1, h.2.2.2.2⟩

/- ## Claim C2: run-fatal conditions and the exit status -/

/-- Claim C2 (amended): each run-fatal condition — invalid logs directory,
empty probe result, or any Fail raised during the configure pass, the
already-configured abort included — ends the run at once with the message
written to the error stream by the except-Fail handler; but the process
exit status is zero, because the handler swallows the exception and the
script then ends normally. -/
theorem claim_C2_amended (args : Args) (o : Oracle) (m : String) :
    (o.isDir args.logs = false →
      (main_run args o).exit = .failCaught (LOGS_FAIL_MSG args.logs) ∧
      fail_stderr (main_run args o).exit = some (LOGS_FAIL_MSG args.logs ++ "\n") ∧
      exit_code (main_run args o).exit = 0) ∧
    (o.isDir args.logs = true → viable_compilers args o = [] →
      (main_run args o).exit = .failCaught (NO_COMPILERS_FAIL_MSG args.compilers) ∧
      fail_stderr (main_run args o).exit =
        some (NO_COMPILERS_FAIL_MSG args.compilers ++ "\n") ∧
      exit_code (main_run args o).exit = 0) ∧
    (o.isDir args.logs = true → viable_compilers args o ≠ [] →
      (configure_pass args o).result = .error m →
      (main_run args o).exit = .failCaught m ∧
      fail_stderr (main_run args o).exit = some (m ++ "\n") ∧
      exit_code (main_run args o).exit = 0) := by
  refine ⟨?_, ?_, ?_⟩
  · intro hdir
    have he : (main_run args o).exit = .failCaught (LOGS_FAIL_MSG args.logs) := by
      unfold main_run
      rw [hdir]
      rfl
    exact ⟨he, by (rw [he]; rfl), by (rw [he]; rfl)⟩
  · intro hdir hempty
    have he : (main_run args o).exit =
        .failCaught (NO_COMPILERS_FAIL_MSG args.compilers) := by
      unfold main_run
      rw [hdir]
      simp only [Bool.not_true, Bool.false_eq_true, if_false, if_pos hempty]
    exact ⟨he, by (rw [he]; rfl), by (rw [he]; rfl)⟩
  · intro hdir hviable hconf
    have he : (main_run args o).exit = .failCaught m := by
      unfold main_run
      rw [hdir]
      simp only [Bool.not_true, Bool.false_eq_true, if_false, if_neg hviable]
      rw [hconf]
    exact ⟨he, by (rw [he]; rfl), by (rw [he]; rfl)⟩

/-- Witness for the amended claim C2: the invalid-logs-directory case at a
concrete input. -/
theorem claim_C2_witness :
    (main_run scenario1_args scenario2_oracle).exit =
      .failCaught (LOGS_FAIL_MSG scenario1_args.logs) ∧
    fail_stderr (main_run scenario1_args scenario2_oracle).exit =
      some (LOGS_FAIL_MSG scenario1_args.logs ++ "\n") ∧
    exit_code (main_run scenario1_args scenario2_oracle).exit = 0 :=
  (claim_C2_amended scenario1_args scenario2_oracle "").1 (by decide)

/-- Counterexample to claim C2 as stated: with the logs path invalid the
run does terminate with the message on the error stream, but the process
exit status is 0, not non-zero — the Fail handler of the __main__ block
never sets an exit code. -/
theorem claim_C2_counterexample :
    (main_run scenario1_args scenario2_oracle).exit =
      .failCaught (LOGS_FAIL_MSG "logs") ∧
    fail_stderr (main_run scenario1_args scenario2_oracle).exit =
      some (LOGS_FAIL_MSG "logs" ++ "\n") ∧
    exit_code (main_run scenario1_args scenario2_oracle).exit = 0 ∧
    ¬ exit_code (main_run scenario1_args scenario2_oracle).exit ≠ 0 := by
  refine ⟨rfl, rfl, rfl, by decide⟩

/- ## Claim C6: the already-configured abort -/

/-- Claim C6: when a pipeline's configure run exits non-zero and its log
contains the make-distclean diagnostic, AutotoolsBuild.configure raises the
distinguished Fail rather than reporting an ordinary per-pipeline failure;
the Fail aborts the whole run — the pipelines after it are not even
configured, no build or test stage runs for any configuration, and no
summary is printed. -/
theorem claim_C6 (args : Args) (o : Oracle) (pre post : List BuildId)
    (cfg : AutotoolsConfig)
    (hdir : o.isDir args.logs = true)
    (hviable : viable_compilers args o ≠ [])
    (hsplit : matrix_of args o = pre ++ BuildId.autotools cfg :: post)
    (hpre : ∀ x ∈ pre, (configure_step o x).isFail = false)
    (hexit : o.configureExits0 cfg = false)
    (hlog : o.logHasDistclean cfg = true) :
    autotools_configure false true = .fail DISTCLEAN_FAIL_MSG ∧
    (main_run args o).exit = .failCaught DISTCLEAN_FAIL_MSG ∧
    (main_run args o).steps =
      (pre ++ [BuildId.autotools cfg]).map (fun b => (b, Stage.configure)) ∧
    (∀ s ∈ (main_run args o).steps, s.2 = Stage.configure) ∧
    (main_run args o).summary = none := by
  have hstep : configure_step o (BuildId.autotools cfg) = .fail DISTCLEAN_FAIL_MSG := by
    rw [configure_step, hexit, hlog]
    rfl
  obtain ⟨hr, ha⟩ := run_step_fail_split BuildId.make_log_name "configure"
    (configure_step o) (BuildId.autotools cfg) DISTCLEAN_FAIL_MSG pre post hpre hstep
  have hr2 : (configure_pass args o).result = .error DISTCLEAN_FAIL_MSG := by
    unfold configure_pass
    rw [hsplit]
    exact hr
  have ha2 : (configure_pass args o).attempted = pre ++ [BuildId.autotools cfg] := by
    unfold configure_pass
    rw [hsplit]
    exact ha
  have hmain : (main_run args o).exit = .failCaught DISTCLEAN_FAIL_MSG ∧
      (main_run args o).steps =
        (configure_pass args o).attempted.map (fun b => (b, Stage.configure)) ∧
      (main_run args o).summary = none := by
    unfold main_run
    rw [hdir]
    simp only [Bool.not_true, Bool.false_eq_true, if_false, if_neg hviable]
    rw [hr2]
    exact ⟨rfl, rfl, rfl⟩
  refine ⟨rfl, hmain.1, ?_, ?_, hmain.2.2⟩
  · rw [hmain.2.1, ha2]
  · intro s hs
    rw [hmain.2.1] at hs
    obtain ⟨b, _, rfl⟩ := List.mem_map.1 hs
    rfl

/-- Witness for claim C6: a concrete run in which the very first pipeline
hits the already-configured condition. -/
theorem claim_C6_witness :
    (main_run scenario1_args scenario6_oracle).exit =
      .failCaught DISTCLEAN_FAIL_MSG ∧
    (main_run scenario1_args scenario6_oracle).summary = none := by
  have h := claim_C6 scenario1_args scenario6_oracle [] [BuildId.cmake]
    scenario1_cfg (by decide) (by decide) (by decide) (by simp)
    (by decide) (by decide)
  exact ⟨h.2.1, h.2.2.2.2⟩

/- ## Claim C1: the two-compiler scenario -/

/-- Counterexample to claim C1 as stated: in the scenario the pipeline list
contains 2 entries, not 1 — the CMake pipeline is always appended to the
axis cross-product — and the final passed-out-of-total line is never
printed at all, because the build-stage run_step call raises TypeError
right after the configure pass. -/
theorem claim_C1_counterexample :
    (main_run scenario1_args scenario1_oracle).started.length = 2 ∧
    (main_run scenario1_args scenario1_oracle).started.length ≠ 1 ∧
    (main_run scenario1_args scenario1_oracle).summary = none ∧
    (main_run scenario1_args scenario1_oracle).summary ≠ some (1, 1) ∧
    (main_run scenario1_args scenario1_oracle).exit = .uncaughtTypeError := by
  refine ⟨rfl, by decide, rfl, by decide, rfl⟩

/-- Claim C1 (amended): in the scenario the probe retains only cc-ok; the
axis cross-product yields exactly one autotools configuration, but the
pipeline list holds two pipelines (the CMake pipeline is appended); the
configure stage runs once for each, and then the run dies in the TypeError
of the build-stage call, so no build or test stage runs and no final
summary line is printed. -/
theorem claim_C1_amended :
    viable_compilers scenario1_args scenario1_oracle = [("cc-ok", "")] ∧
    matrix_of scenario1_args scenario1_oracle =
      [BuildId.autotools scenario1_cfg, BuildId.cmake] ∧
    (main_run scenario1_args scenario1_oracle).steps =
      [(BuildId.autotools scenario1_cfg, Stage.configure),
       (BuildId.cmake, Stage.configure)] ∧
    (main_run scenario1_args scenario1_oracle).exit = .uncaughtTypeError ∧
    (main_run scenario1_args scenario1_oracle).summary = none := by
  refine ⟨by decide, by decide, by decide, rfl, rfl⟩

/- ## Claim C8: minimal-mode truncation -/

/-- Counterexample to claim C8 as stated: with optimization levels supplied
as -O3,-O0 in minimal mode, the single retained configuration uses -O3,
static and plain — the first elements of the unsorted axes — while the
least elements of the sorted axes are -O0, dynamic and audit: truncation
happens before sorting, not after. -/
theorem claim_C8_counterexample :
    matrix_of scenario8_args scenario1_oracle =
      [BuildId.autotools
        { cxx := "cc-ok", opt := "-O3", stdlib := "", link := "static",
          link_opts := ["--enable-static", "--disable-dynamic"],
          debug := "plain", debug_opts := [] },
       BuildId.cmake] ∧
    pySorted strLt scenario8_args.optimize = ["-O0", "-O3"] ∧
    ("-O3" : String) ≠ "-O0" ∧
    (pySorted axisLt LINK).head? =
      some ("dynamic", ["--disable-static", "--enable-dynamic"]) ∧
    ("static" : String) ≠ "dynamic" ∧
    (pySorted axisLt DEBUG).head? = some ("audit", ["--enable-audit"]) ∧
    ("plain" : String) ≠ "audit" := by
  refine ⟨by decide, by decide, by decide, by decide, by decide, by decide, by decide⟩

/-- Claim C8 (amended): minimal mode truncates each axis to its first
element in its original order — probe order for the compiler pairs,
command-line order for the optimization levels, insertion order for the
link and debug maps — before the sorting of the cross-product loops, so
the retained element need not be the least element of the sorted axis. -/
theorem claim_C8_amended (args : Args) (o : Oracle) (hmin : args.minimal = true) :
    matrix_of args o =
      build_matrix ((viable_compilers args o).take 1) (args.optimize.take 1)
        (LINK.take 1) (DEBUG.take 1) := by
  unfold matrix_of
  rw [hmin]
  rfl

/-- Witness for the amended claim C8 at the concrete unsorted-axis
scenario. -/
theorem claim_C8_amended_witness :
    matrix_of scenario8_args scenario1_oracle =
      build_matrix ((viable_compilers scenario8_args scenario1_oracle).take 1)
        (scenario8_args.optimize.take 1) (LINK.take 1) (DEBUG.take 1) :=
  claim_C8_amended scenario8_args scenario1_oracle (by decide)
